import Mathlib

/-!
Shallow embedding of the story-to-video workflow orchestrator
(api/modules/workflow_manager.py, story_to_scenes.py, generate_music.py,
generate_voice.py, api/utils/retry_handler.py, api/workflow_api.py).

Python exceptions are modelled as values of an error type; stateful code is
explicit state passing; wall-clock timestamps, file sizes and logging are
environmental effects outside the claims and are omitted from the records.
-/

/-- Python exception values that occur in the modelled code paths. -/
inductive PyErr where
  | valueError (msg : String)
  | typeError (msg : String)
  | attributeError (msg : String)
  | other (msg : String)
deriving DecidableEq, Repr

/-- Decidable equality for Except, so outcomes can be checked by decide. -/
instance {E A : Type} [DecidableEq E] [DecidableEq A] : DecidableEq (Except E A) := fun x y =>
  match x, y with
  | .ok a, .ok b =>
    if h : a = b then .isTrue (congrArg Except.ok h)
    else .isFalse (fun hc => h (Except.ok.inj hc))
  | .error a, .error b =>
    if h : a = b then .isTrue (congrArg Except.error h)
    else .isFalse (fun hc => h (Except.error.inj hc))
  | .ok _, .error _ => .isFalse (fun hc => Except.noConfusion hc)
  | .error _, .ok _ => .isFalse (fun hc => Except.noConfusion hc)

/-- Python str(e): the message carried by the exception. -/
def py_err_msg : PyErr → String
  | .valueError m => m
  | .typeError m => m
  | .attributeError m => m
  | .other m => m

/-! ## Mood classifier (generate_music.analyze_story_mood) -/

/-- Whether the character list `w` occurs at the start of `l`. -/
def starts_with_chars : List Char → List Char → Bool
  | _, [] => true
  | [], _ :: _ => false
  | a :: l, b :: m => a == b && starts_with_chars l m

/-- Whether `w` occurs as a contiguous substring of `l`
(Python `w in text` on strings). -/
def has_sub_chars (w : List Char) : List Char → Bool
  | [] => w.isEmpty
  | a :: t => starts_with_chars (a :: t) w || has_sub_chars w t

/-- Python `word in text_lower` for strings. -/
def str_contains_sub (text word : String) : Bool :=
  has_sub_chars word.data text.data

/-- Python str.lower (ASCII case folding, which covers the keyword lists). -/
def py_lower (s : String) : String :=
  String.mk (s.data.map Char.toLower)

/-- Splitting a character list at every occurrence of `c`
(Python str.split(c), which keeps empty pieces). -/
def split_on_char (c : Char) : List Char → List (List Char)
  | [] => [[]]
  | a :: t =>
    match split_on_char c t with
    | [] => if a == c then [[], []] else [[a]]
    | h :: rest => if a == c then [] :: h :: rest else (a :: h) :: rest

/-- Python str.split(".") on strings. -/
def py_split_dot (s : String) : List String :=
  (split_on_char '.' s.data).map String.mk

/-- The whitespace characters Python str.strip removes (the ones that can
occur in the modelled inputs). -/
def is_py_space (ch : Char) : Bool :=
  ch == ' ' || ch == '\t' || ch == '\n' || ch == '\r'

/-- Python str.strip(): drop leading and trailing whitespace. -/
def py_strip (s : String) : String :=
  String.mk (((s.data.dropWhile is_py_space).reverse.dropWhile is_py_space).reverse)

def happy_keywords : List String :=
  ["happy", "joy", "celebrate", "laugh", "smile", "fun", "cheerful"]

def sad_keywords : List String :=
  ["sad", "cry", "tear", "grief", "loss", "death", "mourn", "sorrow"]

def mysterious_keywords : List String :=
  ["mystery", "secret", "hidden", "dark", "shadow", "unknown", "strange"]

def adventurous_keywords : List String :=
  ["adventure", "journey", "quest", "battle", "fight", "hero", "explore"]

def calm_keywords : List String :=
  ["peace", "quiet", "gentle", "soft", "calm", "serene", "tranquil"]

/-- Python `sum(1 for word in keywords if word in text_lower)`. -/
def keyword_score (keywords : List String) (text_lower : String) : Nat :=
  (keywords.filter (fun w => str_contains_sub text_lower w)).length

/-- The five category scores of analyze_story_mood, in the dict's
insertion order (happy, sad, mysterious, adventurous, calm). -/
def mood_scores (story_text story_title : String) : Nat × Nat × Nat × Nat × Nat :=
  let t := py_lower (story_text ++ " " ++ story_title)
  (keyword_score happy_keywords t,
   keyword_score sad_keywords t,
   keyword_score mysterious_keywords t,
   keyword_score adventurous_keywords t,
   keyword_score calm_keywords t)

/-- generate_music.analyze_story_mood: highest score wins; ties are broken by
the first category reaching the maximum in dict iteration order; a maximum
of zero yields "neutral". -/
def analyze_story_mood (story_text story_title : String) : String :=
  let s := mood_scores story_text story_title
  let happy := s.1
  let sad := s.2.1
  let mysterious := s.2.2.1
  let adventurous := s.2.2.2.1
  let calm := s.2.2.2.2
  let max_score := max happy (max sad (max mysterious (max adventurous calm)))
  if max_score > 0 then
    if happy = max_score then "happy"
    else if sad = max_score then "sad"
    else if mysterious = max_score then "mysterious"
    else if adventurous = max_score then "adventurous"
    else if calm = max_score then "calm"
    else "neutral"
  else "neutral"

/-! ## Retry policy (api/utils/retry_handler.RetryHandler.retry_async)

The attempts are modelled as a function from the 0-indexed attempt number to
that attempt's outcome; the returned list records the delays slept, in order.
An overall error of `none` corresponds to Python raising the initial
`last_exception = None` when the loop body never ran. -/

def retry_aux {E A : Type} (base_delay : Nat) (f : Nat → Except E A) :
    Nat → Nat → Option E → Except (Option E) A × List Nat
  | 0, _, last => (.error last, [])
  | remaining + 1, k, _ =>
    match f k with
    | .ok v => (.ok v, [])
    | .error e =>
      if remaining > 0 then
        let d := base_delay * 2 ^ k
        let r := retry_aux base_delay f remaining (k + 1) (some e)
        (r.1, d :: r.2)
      else
        (.error (some e), [])

/-- RetryHandler.retry_async with `max_retries` attempts and exponential
backoff `base_delay * 2 ^ attempt` slept after each non-final failure. -/
def retry_async {E A : Type} (max_retries base_delay : Nat)
    (f : Nat → Except E A) : Except (Option E) A × List Nat :=
  retry_aux base_delay f max_retries 0 none

/-! ## Data model (api/models.py, api/workflow_models.py)

Timestamps, processing times and file sizes are wall-clock / filesystem
effects and are omitted; every other field the claims touch is kept. -/

/-- models.Scene. -/
structure Scene where
  scene_number : Int
  description : String
  prompt : String
  duration : Int
deriving DecidableEq, Repr

/-- One parsed scene dict from the segmentation adapter's JSON; a missing
key is `none` (a Python KeyError on access). `duration` is read with
`.get("duration", 5)`. -/
structure SceneData where
  scene_number : Option Int
  description : Option String
  prompt : Option String
  duration : Option Int
deriving DecidableEq, Repr

/-- models.StoryRequest (max_scenes' pydantic default is 4; range checking
is re-done inside the processor, which is what the claims cite). -/
structure StoryRequest where
  story_text : String
  title : Option String
  max_scenes : Int
deriving DecidableEq, Repr

/-- models.SceneBreakdownResponse (processing_time omitted, wall clock). -/
structure SceneBreakdownResponse where
  story_title : String
  scenes : List Scene
  total_scenes : Nat
deriving DecidableEq, Repr

/-- workflow_models.EnhancedPromptResponse (processing_time omitted). -/
structure EnhancedPromptResponse where
  original_prompt : String
  enhanced_story : String
  story_title : String
deriving DecidableEq, Repr

/-- models.VoiceGenerationResponse (fields the orchestrator reads). -/
structure VoiceGenerationResponse where
  audio_file : String
  voice_id : String
deriving DecidableEq, Repr

/-- generate_music.MusicGenerationResponse (fields the orchestrator reads). -/
structure MusicGenerationResponse where
  music_file : String
  duration : Int
  style : String
  mood : String
deriving DecidableEq, Repr

/-- workflow_models.GenerationProgress (timestamp omitted). -/
structure GenerationProgress where
  status : String
  progress_percentage : ℚ
  current_step : String
  estimated_time_remaining : Option ℚ
deriving DecidableEq, Repr

/-- workflow_models.StoryScript (generation_metadata omitted: a free-form
dict of the same data already present elsewhere in the record). -/
structure StoryScript where
  story_title : String
  scenes : List Scene
  total_duration : ℚ
  narration_text : String
  music_description : String
deriving DecidableEq, Repr

/-- workflow_models.FinalVideoResponse (total_processing_time and
file_sizes omitted: wall clock and filesystem). -/
structure FinalVideoResponse where
  story_script : StoryScript
  video_file : String
  audio_file : String
  music_file : String
  image_files : List String
deriving DecidableEq, Repr

/-- workflow_models.WorkflowStatus (created_at/updated_at omitted). -/
structure WorkflowStatus where
  workflow_id : String
  current_phase : String
  status : String
  progress : Option GenerationProgress
  result : Option FinalVideoResponse
deriving DecidableEq, Repr

/-! ## Scene breakdown (story_to_scenes.StoryToScenesProcessor) -/

/-- Building a models.Scene from one adapter dict; a KeyError on
scene_number / description / prompt skips the entry (`continue`). -/
def scene_from_data (d : SceneData) : Option Scene :=
  match d.scene_number, d.description, d.prompt with
  | some n, some de, some p => some ⟨n, de, p, d.duration.getD 5⟩
  | _, _, _ => none

/-- StoryToScenesProcessor._create_fallback_scenes: sentence-split the text,
cap at 4 scenes, number them 1.. with truncated descriptions. -/
def create_fallback_scenes (story_text : String) : List SceneData :=
  let sentences := ((py_split_dot story_text).map py_strip).filter (fun s => s ≠ "")
  let max_scenes := min 4 sentences.length
  (List.range max_scenes).map fun (i : Nat) =>
    let sentence := sentences.getD i ("Scene " ++ toString (i + 1) ++ " of the story")
    { scene_number := some ((i : Int) + 1),
      description := some (if sentence.length > 100
        then String.mk (sentence.data.take 100) ++ "..." else sentence),
      prompt := some ("Scene " ++ toString (i + 1) ++ ": " ++ sentence),
      duration := some 5 }

/-- StoryToScenesProcessor._create_additional_scenes: pad with placeholder
scenes numbered current_count+1 .. target_count. -/
def create_additional_scenes (current_count target_count : Nat) : List Scene :=
  (List.range (target_count - current_count)).map fun (i : Nat) =>
    let n : Int := (current_count : Int) + (i : Int) + 1
    { scene_number := n,
      description := "Additional scene " ++ toString n,
      prompt := "Scene " ++ toString n ++ ": Continuation of the story",
      duration := 5 }

/-- StoryToScenesProcessor._create_fallback_response: scenes rebuilt from
_create_fallback_scenes (all keys present, so no entry is skipped). -/
def fallback_response (req : StoryRequest) : SceneBreakdownResponse :=
  let scenes := (create_fallback_scenes req.story_text).filterMap scene_from_data
  { story_title := req.title.getD "Untitled Story",
    scenes := scenes,
    total_scenes := scenes.length }

/-- StoryToScenesProcessor._process_story_internal. `gemini_scenes` is the
outcome of the retry-wrapped Gemini call combined with _parse_gemini_response
(which itself never raises: parse failures already yield fallback dicts);
`save_call` is the file_manager.save_json outcome. The trailing
`except Exception` converts every failure of the body — including the two
input-validation ValueErrors — into a fallback success response. -/
def process_story_internal (req : StoryRequest)
    (gemini_scenes : Except PyErr (List SceneData))
    (save_call : Except PyErr String) : Except PyErr SceneBreakdownResponse :=
  let body : Except PyErr SceneBreakdownResponse :=
    if req.story_text = "" ∨ (py_strip req.story_text).length < 10 then
      .error (.valueError "Story text must be at least 10 characters long")
    else if req.max_scenes < 2 ∨ req.max_scenes > 6 then
      .error (.valueError "Max scenes must be between 2 and 6")
    else
      match gemini_scenes with
      | .error e => .error e
      | .ok scenes_data =>
        let scenes_data :=
          if scenes_data.isEmpty then create_fallback_scenes req.story_text else scenes_data
        let scenes := scenes_data.filterMap scene_from_data
        let scenes :=
          if scenes.length < req.max_scenes.toNat then
            scenes ++ create_additional_scenes scenes.length req.max_scenes.toNat
          else scenes
        match save_call with
        | .error e => .error e
        | .ok _ =>
          .ok { story_title := req.title.getD "Untitled Story",
                scenes := scenes,
                total_scenes := scenes.length }
  match body with
  | .ok r => .ok r
  | .error _ => .ok (fallback_response req)

/-! ## Workflow state machine (workflow_manager.WorkflowManager) -/

/-- WorkflowManager.create_workflow's initial record for a fresh id. -/
def create_workflow (workflow_id : String) : WorkflowStatus :=
  { workflow_id := workflow_id,
    current_phase := "prompt_enhancement",
    status := "active",
    progress := none,
    result := none }

/-- Rank of a phase in the spec's macro-sequence; all three terminal
phases share the top rank. -/
def phase_rank : String → Nat
  | "prompt_enhancement" => 0
  | "user_confirmation" => 1
  | "generation" => 2
  | "completed" => 3
  | "cancelled" => 3
  | "failed" => 3
  | _ => 0

/-- The spec's terminal phases. -/
def is_terminal_phase (p : String) : Bool :=
  p = "completed" || p = "cancelled" || p = "failed"

/-- WorkflowManager.enhance_prompt over the looked-up workflow
(`none` when the id is unknown). `enh` is the prompt-enhancer adapter
outcome. The phase is set to prompt_enhancement up front, to
user_confirmation on success; on failure only status is set to failed
and the error is re-raised. No phase guard exists. -/
def enhance_prompt_step (enh : Except PyErr EnhancedPromptResponse) :
    Option WorkflowStatus → Option WorkflowStatus × Except PyErr EnhancedPromptResponse
  | none => (none, .error (.valueError "Workflow not found"))
  | some w =>
    let w1 := { w with current_phase := "prompt_enhancement" }
    match enh with
    | .ok r => (some { w1 with current_phase := "user_confirmation" }, .ok r)
    | .error e => (some { w1 with status := "failed" }, .error e)

/-- WorkflowManager.process_user_confirmation over the looked-up workflow.
No phase guard exists: any existing workflow is transitioned. -/
def process_user_confirmation (proceed : Bool) :
    Option WorkflowStatus → Option WorkflowStatus × Except PyErr Bool
  | none => (none, .error (.valueError "Workflow not found"))
  | some w =>
    if proceed then
      (some { w with current_phase := "generation" }, .ok true)
    else
      (some { w with current_phase := "cancelled", status := "cancelled" }, .ok false)

/-! ## Pipeline orchestrator (WorkflowManager.generate_complete_video)

Each external stage is a parameter carrying its outcome; the per-scene
image stage is a function of the scene. The `trace` lists every value
written to progress.progress_percentage, in write order. -/

/-- Result of one generate_complete_video run: the updated workflow (when
the id was known), the returned value or raised error, and the ordered
progress-percentage writes. -/
structure GenRunOut where
  workflow : Option WorkflowStatus
  result : Except PyErr FinalVideoResponse
  trace : List ℚ
deriving Repr

/-- The fresh GenerationProgress written by the error handler
(progress_percentage reset to 0, step shows the error). -/
def failed_progress (e : PyErr) : GenerationProgress :=
  { status := "failed",
    progress_percentage := 0,
    current_step := "Error: " ++ py_err_msg e,
    estimated_time_remaining := none }

/-- The except-branch of generate_complete_video: status := failed, the
progress snapshot is replaced, the phase and result fields are untouched,
and the error is re-raised. -/
def generation_fail_exit (w : WorkflowStatus) (e : PyErr) (tr : List ℚ) : GenRunOut :=
  { workflow := some { w with status := "failed", progress := some (failed_progress e) },
    result := .error e,
    trace := tr ++ [0] }

/-- The per-scene image loop: a failure is caught and skipped (no image
appended, no progress write); a success appends the url and writes
30 + (scene_number / total) * 30. -/
def image_generation_loop (image_call : Scene → Except PyErr String) (total : Nat) :
    List Scene → List String × List ℚ
  | [] => ([], [])
  | s :: rest =>
    let r := image_generation_loop image_call total rest
    match image_call s with
    | .ok url => (url :: r.1, (30 + ((s.scene_number : ℚ) / (total : ℚ)) * 30) :: r.2)
    | .error _ => (r.1, r.2)

/-- WorkflowManager.generate_complete_video, with the workflow looked up
from the registry (`none` = unknown id) and one outcome parameter per
stage call: scene breakdown (story_processor.process_story), per-scene
image generation, narration, music, and video assembly
(_create_video_file, whose internal failures already fall back to a
placeholder; a residual failure raises). -/
def generate_complete_video (wf : Option WorkflowStatus)
    (enhanced_story story_title : String)
    (scene_call : Except PyErr SceneBreakdownResponse)
    (image_call : Scene → Except PyErr String)
    (voice_call : Except PyErr VoiceGenerationResponse)
    (music_call : Except PyErr MusicGenerationResponse)
    (video_call : Except PyErr String) : GenRunOut :=
  match wf with
  | none => { workflow := none, result := .error (.valueError "Workflow not found"), trace := [] }
  | some w =>
    if enhanced_story = "" then
      generation_fail_exit w (.valueError "No enhanced story available for generation") []
    else
      -- initial snapshot (0), then the 10% checkpoint before scene breakdown
      let tr0 : List ℚ := [0, 10]
      match scene_call with
      | .error e => generation_fail_exit w e tr0
      | .ok scene_response =>
        let tr1 := tr0 ++ [30]
        let imgs := image_generation_loop image_call scene_response.scenes.length scene_response.scenes
        let tr2 := tr1 ++ imgs.2 ++ [70]
        match voice_call with
        | .error e => generation_fail_exit w e tr2
        | .ok voice_response =>
          let tr3 := tr2 ++ [85]
          match music_call with
          | .error e => generation_fail_exit w e tr3
          | .ok music_response =>
            let tr4 := tr3 ++ [95]
            match video_call with
            | .error e => generation_fail_exit w e tr4
            | .ok video_file =>
              let tr5 := tr4 ++ [100]
              let story_script : StoryScript :=
                { story_title := story_title,
                  scenes := scene_response.scenes,
                  total_duration := (scene_response.scenes.length : ℚ) * 5,
                  narration_text := enhanced_story,
                  music_description :=
                    "Orchestral background music, " ++ toString music_response.duration ++ "s duration" }
              let final_response : FinalVideoResponse :=
                { story_script := story_script,
                  video_file := video_file,
                  audio_file := voice_response.audio_file,
                  music_file := music_response.music_file,
                  image_files := imgs.1 }
              { workflow := some { w with
                  current_phase := "completed",
                  status := "completed",
                  result := some final_response,
                  progress := some { status := "completed", progress_percentage := 100,
                                     current_step := "Generation completed",
                                     estimated_time_remaining := some 300 } },
                result := .ok final_response,
                trace := tr5 }

/-! ## Broken stage calls inside generate_complete_video (claim C3) -/

/-- Parameter names of VoiceGenerator.generate_voice (besides self):
a single positional parameter `request` with no default. -/
def generate_voice_params : List String := ["request"]

/-- Keyword arguments the orchestrator passes at the narration stage. -/
def narration_call_kwargs : List String := ["text", "voice_id"]

/-- Python keyword-call compatibility: every kwarg must name a parameter
and every required parameter must be bound, else TypeError. -/
def python_kw_call_ok (params kwargs : List String) : Bool :=
  kwargs.all (fun k => params.contains k) && params.all (fun p => kwargs.contains p)

/-- The orchestrator's narration-stage call
`voice_generator.generate_voice(text=..., voice_id=...)`: the keyword
binding is checked before the body could run. -/
def narration_voice_call (gen : Unit → Except PyErr VoiceGenerationResponse) :
    Except PyErr VoiceGenerationResponse :=
  if python_kw_call_ok generate_voice_params narration_call_kwargs then gen ()
  else .error (.typeError "generate_voice() got an unexpected keyword argument 'text'")

/-- Attribute names defined on generate_music.PlaceholderMusicGenerator
(besides __init__ / mood_prompts): only generate_music. -/
def placeholder_music_generator_methods : List String := ["generate_music"]

/-- The module-level generate_music_for_story: it looks up an attribute
named generate_music_for_story on the placeholder generator instance. -/
def music_story_call (gen : Unit → Except PyErr MusicGenerationResponse) :
    Except PyErr MusicGenerationResponse :=
  if placeholder_music_generator_methods.contains "generate_music_for_story" then gen ()
  else .error (.attributeError
    "PlaceholderMusicGenerator object has no attribute generate_music_for_story")

/-! ## HTTP endpoint POST /api/workflow/{id}/generate (workflow_api.generate_video) -/

/-- Exceptions visible at the endpoint layer. -/
inductive ApiExc where
  | http (code : Nat) (detail : String)
  | value (msg : String)
  | err (msg : String)
deriving DecidableEq, Repr

/-- Python str(e) for the endpoint's exceptions (starlette's HTTPException
prints as "code: detail"). -/
def api_exc_str : ApiExc → String
  | .http c d => toString c ++ ": " ++ d
  | .value m => m
  | .err m => m

/-- The endpoint's except chain: `except ValueError` maps to 404, and the
blanket `except Exception` — which also catches the HTTPExceptions raised
inside the try block — re-raises everything else as a 500. -/
def generate_video_handler : ApiExc → ApiExc
  | .value m => .http 404 m
  | e => .http 500 ("Failed to generate video: " ++ api_exc_str e)

/-- workflow_api.generate_video: looks up the workflow, rejects a missing
id (404) and a phase other than generation (400), rejects a missing or
empty enhanced story (400), and only then runs the pipeline (`run` is its
outcome). The Bool records whether generate_complete_video was invoked.
Every exception raised inside the try block flows through
generate_video_handler. -/
def generate_video_endpoint (wf : Option WorkflowStatus)
    (enhanced_story : Option String)
    (run : Except ApiExc FinalVideoResponse) :
    Except ApiExc FinalVideoResponse × Bool :=
  match wf with
  | none =>
    (.error (generate_video_handler (.http 404 "Workflow not found")), false)
  | some w =>
    if w.current_phase ≠ "generation" then
      (.error (generate_video_handler (.http 400
        ("Workflow is in phase '" ++ w.current_phase ++ "', not ready for generation"))), false)
    else
      match enhanced_story with
      | none =>
        (.error (generate_video_handler (.http 400
          "No enhanced story available. Please complete the enhancement phase first.")), false)
      | some s =>
        if s = "" then
          (.error (generate_video_handler (.http 400
            "No enhanced story available. Please complete the enhancement phase first.")), false)
        else
          match run with
          | .ok r => (.ok r, true)
          | .error e => (.error (generate_video_handler e), true)

/-! ## Claims -/

/-- C6: for every existing workflow, confirming with proceed=false leaves
the workflow in the terminal Cancelled phase with status cancelled and
never in Generation; confirming with proceed=true moves it to the
Generation phase. -/
theorem c6_confirm_decision (w : WorkflowStatus) :
    process_user_confirmation false (some w) =
      (some { w with current_phase := "cancelled", status := "cancelled" }, .ok false) ∧
    is_terminal_phase "cancelled" = true ∧
    (process_user_confirmation false (some w)).1.map WorkflowStatus.current_phase ≠
      some "generation" ∧
    (process_user_confirmation true (some w)).1.map WorkflowStatus.current_phase =
      some "generation" := by
  refine ⟨rfl, rfl, ?_, rfl⟩
  simp [process_user_confirmation]

/-- C7: with maxRetries = 3, an operation failing on attempts 0 and 1 and
succeeding on attempt 2 returns the success value after sleeping
baseDelay * 2^0 then baseDelay * 2^1, a total wait of 3 * baseDelay; when
all three attempts fail, the last observed error is re-raised unchanged
(after the same two delays). -/
theorem c7_retry_backoff {A : Type} (b : Nat) (e0 e1 e0' e1' e2' : PyErr) (v : A)
    (f g : Nat → Except PyErr A)
    (hf0 : f 0 = .error e0) (hf1 : f 1 = .error e1) (hf2 : f 2 = .ok v)
    (hg0 : g 0 = .error e0') (hg1 : g 1 = .error e1') (hg2 : g 2 = .error e2') :
    retry_async 3 b f = (.ok v, [b * 2 ^ 0, b * 2 ^ 1]) ∧
    b * 2 ^ 0 + b * 2 ^ 1 = 3 * b ∧
    retry_async 3 b g = (.error (some e2'), [b * 2 ^ 0, b * 2 ^ 1]) := by
  refine ⟨?_, by ring, ?_⟩
  · simp [retry_async, retry_aux, hf0, hf1, hf2]
  · simp [retry_async, retry_aux, hg0, hg1, hg2]

def c7_attempts_then_ok : Nat → Except PyErr Nat := fun k =>
  if k < 2 then .error (.other ("boom" ++ toString k)) else .ok 42

def c7_attempts_all_fail : Nat → Except PyErr Nat := fun k =>
  .error (.other ("boom" ++ toString k))

/-- Witness for C7 at baseDelay = 5: delays 5 and 10 (total 15 = 3 * 5),
success value 42 returned, and the third error re-raised on exhaustion. -/
theorem c7_retry_backoff_witness :
    retry_async 3 5 c7_attempts_then_ok = (.ok 42, [5 * 2 ^ 0, 5 * 2 ^ 1]) ∧
    5 * 2 ^ 0 + 5 * 2 ^ 1 = 3 * 5 ∧
    retry_async 3 5 c7_attempts_all_fail =
      (.error (some (.other "boom2")), [5 * 2 ^ 0, 5 * 2 ^ 1]) :=
  c7_retry_backoff 5 (.other "boom0") (.other "boom1") (.other "boom0")
    (.other "boom1") (.other "boom2") 42 c7_attempts_then_ok c7_attempts_all_fail
    rfl rfl rfl rfl rfl rfl

/-- C9: the mood classifier returns the first category reaching the
maximum keyword score in dict order, so a text scoring 3 on adventurous
and 1 on calm (0 elsewhere) classifies as adventurous, and a text with no
keyword match in any category classifies as neutral. -/
theorem c9_mood_classifier (s1 t1 s2 t2 : String)
    (h1 : mood_scores s1 t1 = (0, 0, 0, 3, 1))
    (h2 : mood_scores s2 t2 = (0, 0, 0, 0, 0)) :
    analyze_story_mood s1 t1 = "adventurous" ∧
    analyze_story_mood s2 t2 = "neutral" := by
  constructor
  · simp only [analyze_story_mood, h1]
    decide
  · simp only [analyze_story_mood, h2]
    decide

/-- Witness for C9: a concrete text with exactly the keyword matches
quest, hero, explore (adventurous) and calm (calm), and a concrete text
matching no keyword. -/
theorem c9_mood_classifier_witness :
    mood_scores "the hero began a quest to explore the calm valley" "" = (0, 0, 0, 3, 1) ∧
    mood_scores "an ordinary tuesday morning" "" = (0, 0, 0, 0, 0) ∧
    analyze_story_mood "the hero began a quest to explore the calm valley" "" = "adventurous" ∧
    analyze_story_mood "an ordinary tuesday morning" "" = "neutral" := by
  have h := c9_mood_classifier "the hero began a quest to explore the calm valley" ""
    "an ordinary tuesday morning" "" (by decide) (by decide)
  exact ⟨by decide, by decide, h.1, h.2⟩

/-- C5 (code bug): calling the generate endpoint with an unknown id or on
a workflow whose phase is not generation never starts the pipeline and
always fails — but the failure surfaces as HTTP 500 wrapping the intended
404/400, because the blanket except clause catches the endpoint's own
HTTPException and re-raises it as 500. -/
theorem c5_generate_wrong_phase (w : WorkflowStatus) (story : Option String)
    (run : Except ApiExc FinalVideoResponse)
    (h : w.current_phase ≠ "generation") :
    (generate_video_endpoint (some w) story run).2 = false ∧
    (generate_video_endpoint (some w) story run).1 =
      .error (.http 500 ("Failed to generate video: " ++ api_exc_str (.http 400
        ("Workflow is in phase '" ++ w.current_phase ++ "', not ready for generation")))) ∧
    (generate_video_endpoint none story run).2 = false ∧
    (generate_video_endpoint none story run).1 =
      .error (.http 500 ("Failed to generate video: " ++
        api_exc_str (.http 404 "Workflow not found"))) := by
  refine ⟨?_, ?_, rfl, rfl⟩ <;>
    simp [generate_video_endpoint, generate_video_handler, h]

/-- Witness for C5: a freshly created workflow (phase prompt_enhancement)
sent to the generate endpoint: pipeline not started, HTTP 500 raised. -/
theorem c5_generate_wrong_phase_witness :
    (generate_video_endpoint (some (create_workflow "wf-1")) (some "story") (.ok
      { story_script := { story_title := "t", scenes := [], total_duration := 0,
                          narration_text := "n", music_description := "m" },
        video_file := "v", audio_file := "a", music_file := "m",
        image_files := [] })).2 = false ∧
    (generate_video_endpoint (some (create_workflow "wf-1")) (some "story") (.ok
      { story_script := { story_title := "t", scenes := [], total_duration := 0,
                          narration_text := "n", music_description := "m" },
        video_file := "v", audio_file := "a", music_file := "m",
        image_files := [] })).1 =
      .error (.http 500 ("Failed to generate video: " ++ api_exc_str (.http 400
        ("Workflow is in phase '" ++ (create_workflow "wf-1").current_phase ++
         "', not ready for generation")))) := by
  have h := c5_generate_wrong_phase (create_workflow "wf-1") (some "story")
    (.ok { story_script := { story_title := "t", scenes := [], total_duration := 0,
                             narration_text := "n", music_description := "m" },
           video_file := "v", audio_file := "a", music_file := "m",
           image_files := [] }) (by decide)
  exact ⟨h.1, h.2.1⟩

/-- A workflow already in the terminal completed phase. -/
def c2_completed_workflow : WorkflowStatus :=
  { workflow_id := "wf-done", current_phase := "completed", status := "completed",
    progress := none, result := none }

/-- A concrete prompt-enhancer success value. -/
def c2_enh_response : EnhancedPromptResponse :=
  { original_prompt := "p", enhanced_story := "an enhanced story", story_title := "t" }

/-- C2 counterexample: enhance_prompt accepts a workflow whose phase is the
terminal completed, succeeds instead of failing with an invalid-state
error, and moves the phase back to user_confirmation — a regression. -/
theorem c2_counterexample :
    is_terminal_phase c2_completed_workflow.current_phase = true ∧
    (enhance_prompt_step (.ok c2_enh_response) (some c2_completed_workflow)).2 =
      .ok c2_enh_response ∧
    (enhance_prompt_step (.ok c2_enh_response) (some c2_completed_workflow)).1.map
      WorkflowStatus.current_phase = some "user_confirmation" ∧
    phase_rank "user_confirmation" < phase_rank c2_completed_workflow.current_phase := by
  decide

/-- C2 amended: neither enhance_prompt nor process_user_confirmation guards
on the current phase: on any existing workflow — terminal or not — enhance
succeeds and (re)sets the phase to user_confirmation, and confirm succeeds
and moves the phase to generation (proceed=true) or cancelled
(proceed=false); so terminality is not enforced and the phase can regress.
Only the generate endpoint rejects a wrong phase. -/
theorem c2_no_phase_guard (w : WorkflowStatus) (r : EnhancedPromptResponse) (p : Bool) :
    (enhance_prompt_step (.ok r) (some w)).1 =
      some { w with current_phase := "user_confirmation" } ∧
    (enhance_prompt_step (.ok r) (some w)).2 = .ok r ∧
    (process_user_confirmation p (some w)).2 = .ok p ∧
    (process_user_confirmation true (some w)).1.map WorkflowStatus.current_phase =
      some "generation" := by
  refine ⟨rfl, rfl, ?_, rfl⟩
  cases p <;> rfl

/-- C8 counterexample: a story whose stripped text is shorter than 10
characters does not surface the ValidationError — the processor converts
it into a fallback success response built by sentence-splitting the text. -/
theorem c8_counterexample :
    ((py_strip "Hi.  ").length < 10) = True ∧
    process_story_internal { story_text := "Hi.  ", title := none, max_scenes := 4 }
        (.error (.other "adapter never called")) (.ok "saved.json") =
      .ok { story_title := "Untitled Story",
            scenes := [{ scene_number := 1, description := "Hi",
                         prompt := "Scene 1: Hi", duration := 5 }],
            total_scenes := 1 } := by
  decide

/-- C8 amended: on malformed caller input (story under 10 stripped
characters or scene count outside [2,6]) the internal ValueError is caught
by the blanket except clause and a deterministic fallback response is
returned as a success, independent of the segmentation adapter and of the
save step (so no retry and no call of either ever happens). -/
theorem c8_validation_fallback (req : StoryRequest)
    (g g' : Except PyErr (List SceneData)) (s s' : Except PyErr String)
    (h : req.story_text = "" ∨ (py_strip req.story_text).length < 10 ∨
         req.max_scenes < 2 ∨ req.max_scenes > 6) :
    process_story_internal req g s = .ok (fallback_response req) ∧
    process_story_internal req g s = process_story_internal req g' s' := by
  by_cases h1 : req.story_text = "" ∨ (py_strip req.story_text).length < 10
  · simp [process_story_internal, h1]
  · have h2 : req.max_scenes < 2 ∨ req.max_scenes > 6 := by tauto
    simp [process_story_internal, h1, h2]

/-- Witness for C8: a concrete too-short story with two different adapter
and save outcomes; the response is the fallback success either way. -/
theorem c8_validation_fallback_witness :
    process_story_internal { story_text := "Hi.  ", title := none, max_scenes := 4 }
        (.ok []) (.ok "a") =
      .ok (fallback_response { story_text := "Hi.  ", title := none, max_scenes := 4 }) ∧
    process_story_internal { story_text := "Hi.  ", title := none, max_scenes := 4 }
        (.ok []) (.ok "a") =
      process_story_internal { story_text := "Hi.  ", title := none, max_scenes := 4 }
        (.error (.other "x")) (.error (.other "y")) :=
  c8_validation_fallback { story_text := "Hi.  ", title := none, max_scenes := 4 }
    (.ok []) (.error (.other "x")) (.ok "a") (.error (.other "y"))
    (by decide)

/-- C4 counterexample: a segmentation result with one scene numbered 3 and
a requested count of 3 is padded to the numbers [3, 2, 3] — duplicated and
not 1..3 — so the padded list is not sequentially numbered in general. -/
theorem c4_counterexample :
    (process_story_internal
        { story_text := "A story about a brave knight.", title := none, max_scenes := 3 }
        (.ok [{ scene_number := some 3, description := some "d",
                prompt := some "p", duration := some 5 }])
        (.ok "f")).map (fun r => r.scenes.map Scene.scene_number) =
      .ok [3, 2, 3] ∧
    ¬ ([3, 2, 3] : List Int).Nodup ∧
    ([3, 2, 3] : List Int) ≠ [1, 2, 3] := by
  decide

/-- When every adapter dict carries the three required keys, no scene is
skipped: the built scene numbers are the dicts' numbers and the length is
preserved. -/
theorem filterMap_scene_all_some (data : List SceneData)
    (h : ∀ d ∈ data, d.scene_number.isSome ∧ d.description.isSome ∧ d.prompt.isSome) :
    (data.filterMap scene_from_data).map Scene.scene_number =
      data.map (fun d => d.scene_number.getD 0) ∧
    (data.filterMap scene_from_data).length = data.length := by
  induction data with
  | nil => simp
  | cons d t ih =>
    obtain ⟨h1, h2, h3⟩ := h d (List.mem_cons_self d t)
    obtain ⟨n, hn⟩ := Option.isSome_iff_exists.mp h1
    obtain ⟨de, hde⟩ := Option.isSome_iff_exists.mp h2
    obtain ⟨p, hp⟩ := Option.isSome_iff_exists.mp h3
    have ht := ih (fun x hx => h x (List.mem_cons_of_mem d hx))
    simp [List.filterMap_cons, scene_from_data, hn, hde, hp, ht.1, ht.2]

/-- The padding scenes are numbered current_count+1 .. target_count. -/
theorem create_additional_numbers (k m : Nat) :
    (create_additional_scenes k m).map Scene.scene_number =
      (List.range (m - k)).map (fun (i : Nat) => (k : Int) + (i : Int) + 1) := by
  simp only [create_additional_scenes, List.map_map]
  rfl

/-- The padding adds target_count - current_count scenes. -/
theorem create_additional_length (k m : Nat) :
    (create_additional_scenes k m).length = m - k := by
  simp [create_additional_scenes]

/-- 1..k followed by k+1..m is 1..m. -/
theorem range_map_add_one_append (k m : Nat) (h : k ≤ m) :
    (List.range k).map (fun (i : Nat) => (i : Int) + 1) ++
      (List.range (m - k)).map (fun (i : Nat) => (k : Int) + (i : Int) + 1) =
    (List.range m).map (fun (i : Nat) => (i : Int) + 1) := by
  have hm : m = k + (m - k) := (Nat.add_sub_cancel' h).symm
  conv_rhs => rw [hm]
  rw [List.range_add, List.map_append, List.map_map]
  congr 1

/-- C4 amended: when the segmentation adapter yields a non-empty list of
complete scene dicts numbered 1..k with k below the requested count (and
the request passes validation and the save step succeeds), the padded
response has exactly maxScenes scenes with sequential unique numbers
1..maxScenes. In general the padding continues from the count of kept
scenes, so adapter numbering other than 1..k yields neither sequential
nor unique numbers. -/
theorem c4_scene_padding_amended (req : StoryRequest) (data : List SceneData) (save : String)
    (hstory : ¬(req.story_text = "" ∨ (py_strip req.story_text).length < 10))
    (hmax : ¬(req.max_scenes < 2 ∨ req.max_scenes > 6))
    (hcomplete : ∀ d ∈ data, d.scene_number.isSome ∧ d.description.isSome ∧ d.prompt.isSome)
    (hnum : data.map (fun d => d.scene_number) =
      (List.range data.length).map (fun (i : Nat) => some ((i : Int) + 1)))
    (hne : data ≠ [])
    (hlen : data.length < req.max_scenes.toNat) :
    ∃ r, process_story_internal req (.ok data) (.ok save) = .ok r ∧
      r.scenes.length = req.max_scenes.toNat ∧
      r.total_scenes = req.max_scenes.toNat ∧
      r.scenes.map Scene.scene_number =
        (List.range req.max_scenes.toNat).map (fun (i : Nat) => (i : Int) + 1) ∧
      (r.scenes.map Scene.scene_number).Nodup := by
  have hfm := filterMap_scene_all_some data hcomplete
  have hnum' : (data.filterMap scene_from_data).map Scene.scene_number =
      (List.range data.length).map (fun (i : Nat) => (i : Int) + 1) := by
    rw [hfm.1]
    have hmm : data.map (fun d => d.scene_number.getD 0) =
        (data.map (fun d => d.scene_number)).map (fun o => o.getD 0) := by
      rw [List.map_map]; rfl
    rw [hmm, hnum, List.map_map]
    rfl
  have hempty : data.isEmpty = false := by
    cases data with
    | nil => exact absurd rfl hne
    | cons a t => rfl
  have hlen2 : (data.filterMap scene_from_data).length < req.max_scenes.toNat := by
    rw [hfm.2]; exact hlen
  have hnums : ((data.filterMap scene_from_data) ++
      create_additional_scenes (data.filterMap scene_from_data).length
        req.max_scenes.toNat).map Scene.scene_number =
      (List.range req.max_scenes.toNat).map (fun (i : Nat) => (i : Int) + 1) := by
    rw [List.map_append, hnum', create_additional_numbers, hfm.2]
    exact range_map_add_one_append data.length req.max_scenes.toNat (le_of_lt hlen)
  have hlenboth : ((data.filterMap scene_from_data) ++
      create_additional_scenes (data.filterMap scene_from_data).length
        req.max_scenes.toNat).length = req.max_scenes.toNat := by
    rw [List.length_append, create_additional_length, hfm.2]
    omega
  refine ⟨{ story_title := req.title.getD "Untitled Story",
            scenes := (data.filterMap scene_from_data) ++
              create_additional_scenes (data.filterMap scene_from_data).length
                req.max_scenes.toNat,
            total_scenes := ((data.filterMap scene_from_data) ++
              create_additional_scenes (data.filterMap scene_from_data).length
                req.max_scenes.toNat).length }, ?_, ?_, ?_, ?_, ?_⟩
  · simp [process_story_internal, hempty, hstory, hmax, hlen2]
  · exact hlenboth
  · exact hlenboth
  · exact hnums
  · rw [hnums]
    refine List.Nodup.map ?_ (List.nodup_range _)
    intro a b hab
    have hab' : (a : Int) + 1 = (b : Int) + 1 := hab
    have : (a : Int) = (b : Int) := by linarith
    exact_mod_cast this

/-- Witness for C4 amended: one adapter scene numbered 1, requested count
3 — the padded response is numbered 1, 2, 3. -/
theorem c4_scene_padding_amended_witness :
    ∃ r, process_story_internal
        { story_text := "A story about a brave knight.", title := none, max_scenes := 3 }
        (.ok [{ scene_number := some 1, description := some "d",
                prompt := some "p", duration := some 5 }])
        (.ok "f") = .ok r ∧
      r.scenes.length = (3 : Int).toNat ∧
      r.total_scenes = (3 : Int).toNat ∧
      r.scenes.map Scene.scene_number =
        (List.range (3 : Int).toNat).map (fun (i : Nat) => (i : Int) + 1) ∧
      (r.scenes.map Scene.scene_number).Nodup :=
  c4_scene_padding_amended
    { story_text := "A story about a brave knight.", title := none, max_scenes := 3 }
    [{ scene_number := some 1, description := some "d", prompt := some "p", duration := some 5 }]
    "f" (by decide) (by decide) (by decide) (by decide) (by decide) (by decide)

/-- C1 amended: every exit path of generate_complete_video on an existing
workflow is determinate, but failure is recorded in status, not phase: on
success the phase and status become completed and the result is stored
with a final 100% snapshot; on any raised error the status becomes failed
while the phase keeps its previous value (it never becomes a Failed
phase), the progress snapshot is replaced by a fresh failed snapshot at
0% (prior progress is not retained), and the error is re-raised. -/
theorem c1_generation_exit_paths (w : WorkflowStatus) (story title : String)
    (sc : Except PyErr SceneBreakdownResponse) (img : Scene → Except PyErr String)
    (vo : Except PyErr VoiceGenerationResponse) (mu : Except PyErr MusicGenerationResponse)
    (vid : Except PyErr String) :
    (generate_complete_video (some w) story title sc img vo mu vid).workflow =
      some (match (generate_complete_video (some w) story title sc img vo mu vid).result with
        | .ok r =>
          { w with current_phase := "completed", status := "completed",
                   result := some r,
                   progress := some { status := "completed", progress_percentage := 100,
                                      current_step := "Generation completed",
                                      estimated_time_remaining := some 300 } }
        | .error e => { w with status := "failed", progress := some (failed_progress e) }) := by
  by_cases h : story = "" <;>
    cases sc <;> cases vo <;> cases mu <;> cases vid <;>
      simp [generate_complete_video, generation_fail_exit, h]

/-- The concrete workflow for the C1 counterexample run. -/
def c1_wf : WorkflowStatus :=
  { workflow_id := "wf-gen", current_phase := "generation", status := "active",
    progress := none, result := none }

/-- The concrete orchestrator run for the C1 counterexample: scene
breakdown and both images succeed, then the narration stage raises. -/
def c1_run : GenRunOut :=
  generate_complete_video (some c1_wf) "a story" "T"
    (.ok { story_title := "T",
           scenes := [{ scene_number := 1, description := "d1", prompt := "p1", duration := 5 },
                      { scene_number := 2, description := "d2", prompt := "p2", duration := 5 }],
           total_scenes := 2 })
    (fun _ => .ok "img.png")
    (.error (.typeError "unexpected keyword argument"))
    (.ok { music_file := "m.mp3", duration := 120, style := "orchestral", mood := "adventurous" })
    (.ok "v.mp4")

/-- C1 counterexample: after an unrecoverable narration failure the
workflow's phase is still generation — neither Completed nor Failed — and
the progress snapshot has been reset to 0% although 70% had already been
written (the 70 in the trace), so partial progress is not retained. -/
theorem c1_counterexample :
    c1_run.workflow.map WorkflowStatus.current_phase = some "generation" ∧
    ¬(c1_run.workflow.map WorkflowStatus.current_phase = some "completed" ∨
      c1_run.workflow.map WorkflowStatus.current_phase = some "failed") ∧
    (c1_run.workflow.bind WorkflowStatus.progress).map GenerationProgress.progress_percentage =
      some 0 ∧
    c1_run.trace = [0, 10, 30, 45, 60, 70, 0] ∧
    c1_run.result = .error (.typeError "unexpected keyword argument") := by
  refine ⟨rfl, by decide, rfl, ?_, rfl⟩
  simp [c1_run, c1_wf, generate_complete_video, image_generation_loop, generation_fail_exit]
  norm_num

/-- C3: the narration stage's keyword call does not match
generate_voice's signature (TypeError before any synthesis), the
module-level music entry point names a method PlaceholderMusicGenerator
does not define (AttributeError), and with those call outcomes every
generate_complete_video execution raises before its success path: the
result is always an error and the workflow's phase and stored result are
left exactly as they were — no workflow reaches Completed with a
populated result through the orchestrator. -/
theorem c3_pipeline_always_fails
    (genv : Unit → Except PyErr VoiceGenerationResponse)
    (genm : Unit → Except PyErr MusicGenerationResponse)
    (wf : Option WorkflowStatus) (story title : String)
    (sc : Except PyErr SceneBreakdownResponse) (img : Scene → Except PyErr String)
    (vid : Except PyErr String) :
    narration_voice_call genv =
      .error (.typeError "generate_voice() got an unexpected keyword argument 'text'") ∧
    music_story_call genm =
      .error (.attributeError
        "PlaceholderMusicGenerator object has no attribute generate_music_for_story") ∧
    (generate_complete_video wf story title sc img (narration_voice_call genv)
        (music_story_call genm) vid).result.isOk = false ∧
    (generate_complete_video wf story title sc img (narration_voice_call genv)
        (music_story_call genm) vid).workflow.map WorkflowStatus.current_phase =
      wf.map WorkflowStatus.current_phase ∧
    (generate_complete_video wf story title sc img (narration_voice_call genv)
        (music_story_call genm) vid).workflow.map WorkflowStatus.result =
      wf.map WorkflowStatus.result := by
  refine ⟨rfl, rfl, ?_, ?_, ?_⟩ <;>
    (rcases wf with _ | w
     · simp [generate_complete_video, Except.isOk, Except.toBool]
     · by_cases h : story = "" <;> cases sc <;>
         simp [generate_complete_video, generation_fail_exit, narration_voice_call,
           python_kw_call_ok, generate_voice_params, narration_call_kwargs, Except.isOk,
           Except.toBool, h])

/-- The concrete workflow for the C10 counterexample run. -/
def c10_wf : WorkflowStatus :=
  { workflow_id := "wf-gen2", current_phase := "generation", status := "active",
    progress := none, result := none }

/-- The concrete orchestrator run for the C10 counterexample: scene
breakdown and both images succeed, then narration raises, so the error
handler writes a 0% snapshot after 70% was already written. -/
def c10_run : GenRunOut :=
  generate_complete_video (some c10_wf) "another story" "T2"
    (.ok { story_title := "T2",
           scenes := [{ scene_number := 1, description := "e1", prompt := "q1", duration := 5 },
                      { scene_number := 2, description := "e2", prompt := "q2", duration := 5 }],
           total_scenes := 2 })
    (fun _ => .ok "img2.png")
    (.error (.typeError "unexpected keyword argument"))
    (.ok { music_file := "m2.mp3", duration := 120, style := "orchestral", mood := "calm" })
    (.ok "v2.mp4")

/-- C10 counterexample: the progress percentages actually written during
one run are 0, 10, 30, 45, 60, 70 and then 0 again (the failure handler's
reset), which is not monotonically non-decreasing. -/
theorem c10_counterexample :
    c10_run.trace = [0, 10, 30, 45, 60, 70, 0] ∧
    ¬ List.Chain' (fun a b : ℚ => a ≤ b) c10_run.trace := by
  have ht : c10_run.trace = [0, 10, 30, 45, 60, 70, 0] := by
    simp [c10_run, c10_wf, generate_complete_video, image_generation_loop, generation_fail_exit]
    norm_num
  refine ⟨ht, ?_⟩
  rw [ht]
  intro hc
  simp only [List.chain'_cons, List.chain'_singleton] at hc
  norm_num at hc

/-- The progress values the image loop writes: one entry per scene whose
image call succeeded, in scene order. -/
theorem image_loop_trace_eq (img : Scene → Except PyErr String) (N : Nat) (l : List Scene) :
    (image_generation_loop img N l).2 =
      (l.filter (fun s => (img s).isOk)).map
        (fun s => 30 + ((s.scene_number : ℚ) / (N : ℚ)) * 30) := by
  induction l with
  | nil => rfl
  | cons s t ih =>
    cases h : img s <;>
      simp [image_generation_loop, h, List.filter_cons, ih, Except.isOk, Except.toBool]

/-- C10 amended: on a run where the scene list is numbered sequentially
1..totalScenes and the scene, narration, music and assembly calls return
(per-scene image calls may fail and are skipped), the sequence of
progress percentages written — 0, 10, 30, the per-scene checkpoints
30 + (sceneNumber/totalScenes)*30, 70, 85, 95, 100 — is monotonically
non-decreasing, each written before the next stage advances; a failing
run instead ends with the handler's 0% write, which is a decrease. -/
theorem c10_progress_monotone_amended (w : WorkflowStatus) (story title : String)
    (resp : SceneBreakdownResponse) (img : Scene → Except PyErr String)
    (vr : VoiceGenerationResponse) (mr : MusicGenerationResponse) (vf : String)
    (hstory : story ≠ "")
    (hnum : resp.scenes.map Scene.scene_number =
      (List.range resp.scenes.length).map (fun (i : Nat) => (i : Int) + 1)) :
    List.Chain' (fun a b : ℚ => a ≤ b)
      (generate_complete_video (some w) story title (.ok resp) img
        (.ok vr) (.ok mr) (.ok vf)).trace := by
  have htrace : (generate_complete_video (some w) story title (.ok resp) img
      (.ok vr) (.ok mr) (.ok vf)).trace =
      0 :: 10 :: 30 :: ((resp.scenes.filter (fun s => (img s).isOk)).map
        (fun s => 30 + ((s.scene_number : ℚ) / (resp.scenes.length : ℚ)) * 30) ++
        [70, 85, 95, 100]) := by
    simp [generate_complete_video, hstory, image_loop_trace_eq]
  rw [htrace]
  rcases eq_or_ne resp.scenes [] with hle | hlne
  · rw [hle]
    simp only [List.filter_nil, List.map_nil, List.nil_append]
    norm_num [List.chain'_cons, List.chain'_singleton]
  · have hN : 0 < resp.scenes.length := List.length_pos.mpr hlne
    have hNQ : (0 : ℚ) < (resp.scenes.length : ℚ) := by exact_mod_cast hN
    -- every scene number is within 1..totalScenes
    have hboundInt : ∀ s ∈ resp.scenes,
        1 ≤ s.scene_number ∧ s.scene_number ≤ (resp.scenes.length : Int) := by
      intro s hs
      have hmem : s.scene_number ∈ resp.scenes.map Scene.scene_number :=
        List.mem_map_of_mem _ hs
      rw [hnum] at hmem
      obtain ⟨i, hi, hv⟩ := List.mem_map.mp hmem
      have hi' := List.mem_range.mp hi
      omega
    -- the scene numbers are ascending along the list
    have hpairInt : resp.scenes.Pairwise
        (fun a b => a.scene_number ≤ b.scene_number) := by
      have h1 : (resp.scenes.map Scene.scene_number).Pairwise
          (fun a b : Int => a ≤ b) := by
        rw [hnum, List.pairwise_map]
        exact (List.pairwise_lt_range _).imp (fun hab => by omega)
      exact List.pairwise_map.mp h1
    -- restrict to the scenes whose image call succeeded
    have hsub : (resp.scenes.filter (fun s => (img s).isOk)).Sublist resp.scenes :=
      List.filter_sublist resp.scenes
    have hboundF : ∀ s ∈ resp.scenes.filter (fun s => (img s).isOk),
        1 ≤ s.scene_number ∧ s.scene_number ≤ (resp.scenes.length : Int) :=
      fun s hs => hboundInt s (hsub.subset hs)
    have hpairF := hpairInt.sublist hsub
    -- the written per-scene values lie in [30, 60]
    have hval : ∀ x ∈ (resp.scenes.filter (fun s => (img s).isOk)).map
        (fun s => 30 + ((s.scene_number : ℚ) / (resp.scenes.length : ℚ)) * 30),
        30 ≤ x ∧ x ≤ 60 := by
      intro x hx
      obtain ⟨s, hs, rfl⟩ := List.mem_map.mp hx
      obtain ⟨h1, h2⟩ := hboundF s hs
      have h1' : (1 : ℚ) ≤ (s.scene_number : ℚ) := by exact_mod_cast h1
      have h2' : (s.scene_number : ℚ) ≤ (resp.scenes.length : ℚ) := by exact_mod_cast h2
      constructor
      · have hd : 0 ≤ ((s.scene_number : ℚ) / (resp.scenes.length : ℚ)) * 30 :=
          mul_nonneg (div_nonneg (by linarith) (le_of_lt hNQ)) (by norm_num)
        linarith
      · have hdiv : (s.scene_number : ℚ) / (resp.scenes.length : ℚ) ≤ 1 :=
          (div_le_one hNQ).mpr h2'
        have hd : ((s.scene_number : ℚ) / (resp.scenes.length : ℚ)) * 30 ≤ 1 * 30 :=
          mul_le_mul_of_nonneg_right hdiv (by norm_num)
        linarith
    -- and are ascending
    have hpairVal : ((resp.scenes.filter (fun s => (img s).isOk)).map
        (fun s => 30 + ((s.scene_number : ℚ) / (resp.scenes.length : ℚ)) * 30)).Pairwise
        (fun a b : ℚ => a ≤ b) := by
      rw [List.pairwise_map]
      refine hpairF.imp ?_
      intro a b hab
      have hab' : ((a.scene_number : ℚ)) ≤ ((b.scene_number : ℚ)) := by exact_mod_cast hab
      have hdiv : (a.scene_number : ℚ) / (resp.scenes.length : ℚ) ≤
          (b.scene_number : ℚ) / (resp.scenes.length : ℚ) := by
        rw [div_eq_mul_inv, div_eq_mul_inv]
        exact mul_le_mul_of_nonneg_right hab' (inv_nonneg.mpr (le_of_lt hNQ))
      linarith
    -- lower bounds over the whole tail
    have hRest : ∀ b ∈ ([70, 85, 95, 100] : List ℚ), 70 ≤ b := by
      intro b hb
      simp only [List.mem_cons, List.not_mem_nil, or_false] at hb
      rcases hb with rfl | rfl | rfl | rfl <;> norm_num
    have htail : ∀ b ∈ (resp.scenes.filter (fun s => (img s).isOk)).map
        (fun s => 30 + ((s.scene_number : ℚ) / (resp.scenes.length : ℚ)) * 30) ++
        [70, 85, 95, 100], 30 ≤ b := by
      intro b hb
      rcases List.mem_append.mp hb with h | h
      · exact (hval b h).1
      · linarith [hRest b h]
    -- assemble the monotone trace
    refine List.Pairwise.chain' ?_
    refine List.pairwise_cons.mpr ⟨?_, List.pairwise_cons.mpr ⟨?_,
      List.pairwise_cons.mpr ⟨?_, ?_⟩⟩⟩
    · intro b hb
      simp only [List.mem_cons] at hb
      rcases hb with rfl | rfl | hb
      · norm_num
      · norm_num
      · linarith [htail b hb]
    · intro b hb
      simp only [List.mem_cons] at hb
      rcases hb with rfl | hb
      · norm_num
      · linarith [htail b hb]
    · exact htail
    · refine List.pairwise_append.mpr ⟨hpairVal, ?_, ?_⟩
      · refine List.pairwise_cons.mpr ⟨?_, List.pairwise_cons.mpr ⟨?_,
          List.pairwise_cons.mpr ⟨?_, List.pairwise_singleton _ _⟩⟩⟩ <;>
          (intro b hb
           simp only [List.mem_cons, List.not_mem_nil, or_false] at hb
           rcases hb with rfl | rfl | rfl <;> norm_num)
      · intro a ha b hb
        linarith [(hval a ha).2, hRest b hb]

/-- Witness for C10 amended: two scenes numbered 1 and 2 with every stage
succeeding — the full checkpoint trace is monotone. -/
theorem c10_progress_monotone_amended_witness :
    List.Chain' (fun a b : ℚ => a ≤ b)
      (generate_complete_video
        (some { workflow_id := "wf-gen3", current_phase := "generation", status := "active",
                progress := none, result := none })
        "a third story" "T3"
        (.ok { story_title := "T3",
               scenes := [{ scene_number := 1, description := "f1", prompt := "r1", duration := 5 },
                          { scene_number := 2, description := "f2", prompt := "r2", duration := 5 }],
               total_scenes := 2 })
        (fun _ => .ok "img3.png")
        (.ok { audio_file := "a3.mp3", voice_id := "narrator" })
        (.ok { music_file := "m3.mp3", duration := 120, style := "orchestral", mood := "calm" })
        (.ok "v3.mp4")).trace :=
  c10_progress_monotone_amended
    { workflow_id := "wf-gen3", current_phase := "generation", status := "active",
      progress := none, result := none }
    "a third story" "T3"
    { story_title := "T3",
      scenes := [{ scene_number := 1, description := "f1", prompt := "r1", duration := 5 },
                 { scene_number := 2, description := "f2", prompt := "r2", duration := 5 }],
      total_scenes := 2 }
    (fun _ => .ok "img3.png")
    { audio_file := "a3.mp3", voice_id := "narrator" }
    { music_file := "m3.mp3", duration := 120, style := "orchestral", mood := "calm" }
    "v3.mp4" (by decide) (by decide)
